import Mathlib

/-!
Verification of `src/tmp/gen_drawio.py`, a one-shot generator that builds a
fixed draw.io XML document in memory and writes it to a hard-coded path.

The embedding has two layers:
* `xml` is the exact document string the program builds (the `xml` variable
  of the source, a literal with no interpolation).
* `cells` is the structured content of that document: the `mxCell` records
  it declares, in declaration order, with their attributes and geometry.

The effectful tail of the program (`os.makedirs`, `open(...).write`,
`print`) is modelled by `run` over an explicit filesystem state `FS`,
with fault injection for the two I/O operations.
-/

namespace GenDrawio

/-- Geometry of a cell: an `mxGeometry` element. Nodes carry an absolute
rectangle; edges carry `relative="1"` plus optional waypoints. -/
inductive Geom where
  | abs (x y w h : Int)
  | rel (points : List (Int × Int))
deriving DecidableEq, Repr

/-- One `mxCell` record of the document: its attributes as written in the
source, in particular the `vertex="1"` / `edge="1"` markers, the owning
`parent`, and for edges the `source` and `target` references. -/
structure Cell where
  id : String
  value : Option String := none
  style : Option String := none
  vertex : Bool := false
  edge : Bool := false
  parent : Option String := none
  source : Option String := none
  target : Option String := none
  geom : Option Geom := none
deriving DecidableEq, Repr

def cells : List Cell := [
  { id := "0" },
  { id := "1", parent := some "0" },
  { id := "app1", value := some "App Pod 1", style := some "rounded=1;whiteSpace=wrap;html=1;", vertex := true, parent := some "1", geom := some (Geom.abs 40 200 100 40) },
  { id := "app2", value := some "App Pod 2", style := some "rounded=1;whiteSpace=wrap;html=1;", vertex := true, parent := some "1", geom := some (Geom.abs 40 260 100 40) },
  { id := "appN", value := some "App Pod N", style := some "rounded=1;whiteSpace=wrap;html=1;dashed=1;", vertex := true, parent := some "1", geom := some (Geom.abs 40 320 100 40) },
  { id := "admin", value := some "Admin", style := some "shape=actor;whiteSpace=wrap;html=1;", vertex := true, parent := some "1", geom := some (Geom.abs 60 450 40 50) },
  { id := "bouncer", value := some "DBBouncer", style := some "swimlane;whiteSpace=wrap;html=1;startSize=30;", vertex := true, parent := some "1", geom := some (Geom.abs 240 100 540 440) },
  { id := "proxy_pg", value := some "Proxy Server&#10;(PostgreSQL :6432)", style := some "rounded=1;whiteSpace=wrap;html=1;fillColor=#dae8fc;strokeColor=#6c8ebf;", vertex := true, parent := some "bouncer", geom := some (Geom.abs 40 80 120 60) },
  { id := "proxy_my", value := some "Proxy Server&#10;(MySQL :3307)", style := some "rounded=1;whiteSpace=wrap;html=1;fillColor=#dae8fc;strokeColor=#6c8ebf;", vertex := true, parent := some "bouncer", geom := some (Geom.abs 40 160 120 60) },
  { id := "api_server", value := some "REST API&#10;(:8080)", style := some "rounded=1;whiteSpace=wrap;html=1;fillColor=#fff2cc;strokeColor=#d6b656;", vertex := true, parent := some "bouncer", geom := some (Geom.abs 40 280 120 60) },
  { id := "router", value := some "Router", style := some "rounded=1;whiteSpace=wrap;html=1;fillColor=#d5e8d4;strokeColor=#82b366;", vertex := true, parent := some "bouncer", geom := some (Geom.abs 220 120 90 60) },
  { id := "pool", value := some "Pool Manager", style := some "rounded=1;whiteSpace=wrap;html=1;fillColor=#e1d5e7;strokeColor=#9673a6;", vertex := true, parent := some "bouncer", geom := some (Geom.abs 380 120 120 80) },
  { id := "health", value := some "Health Checker", style := some "rounded=1;whiteSpace=wrap;html=1;fillColor=#f8cecc;strokeColor=#b85450;", vertex := true, parent := some "bouncer", geom := some (Geom.abs 220 280 100 60) },
  { id := "metrics", value := some "Metrics (Prometheus)", style := some "rounded=1;whiteSpace=wrap;html=1;fillColor=#eeeeee;strokeColor=#36393d;", vertex := true, parent := some "bouncer", geom := some (Geom.abs 380 280 120 60) },
  { id := "config", value := some "Config Watcher", style := some "shape=document;whiteSpace=wrap;html=1;boundedLbl=1;fillColor=#ffffff;", vertex := true, parent := some "bouncer", geom := some (Geom.abs 220 360 100 60) },
  { id := "t1", value := some "Tenant 1 DB&#10;(PostgreSQL)", style := some "shape=cylinder3;whiteSpace=wrap;html=1;boundedLbl=1;backgroundOutline=1;size=15;fillColor=#dae8fc;strokeColor=#6c8ebf;", vertex := true, parent := some "1", geom := some (Geom.abs 900 150 100 80) },
  { id := "t2", value := some "Tenant 2 DB&#10;(MySQL)", style := some "shape=cylinder3;whiteSpace=wrap;html=1;boundedLbl=1;backgroundOutline=1;size=15;fillColor=#ffe6cc;strokeColor=#d79b00;", vertex := true, parent := some "1", geom := some (Geom.abs 900 270 100 80) },
  { id := "tN", value := some "Tenant N DB", style := some "shape=cylinder3;whiteSpace=wrap;html=1;boundedLbl=1;backgroundOutline=1;size=15;dashed=1;", vertex := true, parent := some "1", geom := some (Geom.abs 900 390 100 80) },
  { id := "e1", style := some "edgeStyle=orthogonalEdgeStyle;rounded=0;orthogonalLoop=1;jettySize=auto;html=1;", edge := true, parent := some "1", source := some "app1", target := some "proxy_pg", geom := some (Geom.rel []) },
  { id := "e2", style := some "edgeStyle=orthogonalEdgeStyle;rounded=0;orthogonalLoop=1;jettySize=auto;html=1;", edge := true, parent := some "1", source := some "app2", target := some "proxy_pg", geom := some (Geom.rel []) },
  { id := "e3", style := some "edgeStyle=orthogonalEdgeStyle;rounded=0;orthogonalLoop=1;jettySize=auto;html=1;", edge := true, parent := some "1", source := some "appN", target := some "proxy_my", geom := some (Geom.rel []) },
  { id := "e4", style := some "edgeStyle=orthogonalEdgeStyle;rounded=0;orthogonalLoop=1;jettySize=auto;html=1;dashed=1;", edge := true, parent := some "1", source := some "admin", target := some "api_server", geom := some (Geom.rel []) },
  { id := "e_px_rt1", style := some "edgeStyle=orthogonalEdgeStyle;html=1;", edge := true, parent := some "1", source := some "proxy_pg", target := some "router", geom := some (Geom.rel []) },
  { id := "e_px_rt2", style := some "edgeStyle=orthogonalEdgeStyle;html=1;", edge := true, parent := some "1", source := some "proxy_my", target := some "router", geom := some (Geom.rel []) },
  { id := "e_rt_pool", style := some "edgeStyle=orthogonalEdgeStyle;html=1;", edge := true, parent := some "1", source := some "router", target := some "pool", geom := some (Geom.rel []) },
  { id := "e_pool_t1", style := some "edgeStyle=orthogonalEdgeStyle;html=1;", edge := true, parent := some "1", source := some "pool", target := some "t1", geom := some (Geom.rel []) },
  { id := "e_pool_t2", style := some "edgeStyle=orthogonalEdgeStyle;html=1;", edge := true, parent := some "1", source := some "pool", target := some "t2", geom := some (Geom.rel []) },
  { id := "e_pool_tN", style := some "edgeStyle=orthogonalEdgeStyle;html=1;dashed=1;", edge := true, parent := some "1", source := some "pool", target := some "tN", geom := some (Geom.rel []) },
  { id := "e_api_rt", style := some "edgeStyle=orthogonalEdgeStyle;html=1;dashed=1;startArrow=classic;endArrow=classic;", edge := true, parent := some "1", source := some "api_server", target := some "router", geom := some (Geom.rel []) },
  { id := "e_api_pool", style := some "edgeStyle=orthogonalEdgeStyle;html=1;dashed=1;startArrow=classic;endArrow=classic;", edge := true, parent := some "1", source := some "api_server", target := some "pool", geom := some (Geom.rel [(490, 310)]) },
  { id := "e_hlth_pool", style := some "edgeStyle=orthogonalEdgeStyle;html=1;dashed=1;startArrow=classic;endArrow=none;", edge := true, parent := some "1", source := some "health", target := some "pool", geom := some (Geom.rel []) },
  { id := "e_hlth_t1", style := some "edgeStyle=orthogonalEdgeStyle;html=1;dashed=1;strokeColor=#b85450;", edge := true, parent := some "1", source := some "health", target := some "t1", geom := some (Geom.rel []) },
  { id := "e_hlth_t2", style := some "edgeStyle=orthogonalEdgeStyle;html=1;dashed=1;strokeColor=#b85450;", edge := true, parent := some "1", source := some "health", target := some "t2", geom := some (Geom.rel []) },
  { id := "e_pool_met", style := some "edgeStyle=orthogonalEdgeStyle;html=1;dashed=1;", edge := true, parent := some "1", source := some "pool", target := some "metrics", geom := some (Geom.rel []) },
  { id := "e_cfg_rt", style := some "edgeStyle=orthogonalEdgeStyle;html=1;dashed=1;", edge := true, parent := some "1", source := some "config", target := some "router", geom := some (Geom.rel []) },
  { id := "e_cfg_pool", style := some "edgeStyle=orthogonalEdgeStyle;html=1;dashed=1;", edge := true, parent := some "1", source := some "config", target := some "pool", geom := some (Geom.rel []) }
]

/-- The identifiers of the node (vertex) cells, in declaration order. -/
def nodeIds : List String := (cells.filter (fun c => c.vertex)).map (fun c => c.id)

/-- The identifiers of the edge cells, in declaration order. -/
def edgeIds : List String := (cells.filter (fun c => c.edge)).map (fun c => c.id)

/-- The exact document string built by the program (the `xml` variable of the
source: an f-string with no interpolation, hence a fixed literal). -/
def xml : String :=
  "<mxfile host=\"app.diagrams.net\" modified=\"2026-02-22T00:00:00.000Z\" agent=\"antigravity\" version=\"21.0.0\" type=\"device\">
  <diagram id=\"diagram_1\" name=\"Architecture\">
    <mxGraphModel dx=\"1200\" dy=\"800\" grid=\"1\" gridSize=\"10\" guides=\"1\" tooltips=\"1\" connect=\"1\" arrows=\"1\" fold=\"1\" page=\"1\" pageScale=\"1\" pageWidth=\"1169\" pageHeight=\"827\" background=\"#ffffff\" math=\"0\" shadow=\"0\">
      <root>
        <mxCell id=\"0\" />
        <mxCell id=\"1\" parent=\"0\" />
        
        <!-- App Pods -->
        <mxCell id=\"app1\" value=\"App Pod 1\" style=\"rounded=1;whiteSpace=wrap;html=1;\" vertex=\"1\" parent=\"1\">
          <mxGeometry x=\"40\" y=\"200\" width=\"100\" height=\"40\" as=\"geometry\" />
        </mxCell>
        <mxCell id=\"app2\" value=\"App Pod 2\" style=\"rounded=1;whiteSpace=wrap;html=1;\" vertex=\"1\" parent=\"1\">
          <mxGeometry x=\"40\" y=\"260\" width=\"100\" height=\"40\" as=\"geometry\" />
        </mxCell>
        <mxCell id=\"appN\" value=\"App Pod N\" style=\"rounded=1;whiteSpace=wrap;html=1;dashed=1;\" vertex=\"1\" parent=\"1\">
          <mxGeometry x=\"40\" y=\"320\" width=\"100\" height=\"40\" as=\"geometry\" />
        </mxCell>
        <mxCell id=\"admin\" value=\"Admin\" style=\"shape=actor;whiteSpace=wrap;html=1;\" vertex=\"1\" parent=\"1\">
          <mxGeometry x=\"60\" y=\"450\" width=\"40\" height=\"50\" as=\"geometry\" />
        </mxCell>

        <!-- DBBouncer Container -->
        <mxCell id=\"bouncer\" value=\"DBBouncer\" style=\"swimlane;whiteSpace=wrap;html=1;startSize=30;\" vertex=\"1\" parent=\"1\">
          <mxGeometry x=\"240\" y=\"100\" width=\"540\" height=\"440\" as=\"geometry\" />
        </mxCell>
        
        <!-- DBBouncer Internals -->
        <mxCell id=\"proxy_pg\" value=\"Proxy Server&#10;(PostgreSQL :6432)\" style=\"rounded=1;whiteSpace=wrap;html=1;fillColor=#dae8fc;strokeColor=#6c8ebf;\" vertex=\"1\" parent=\"bouncer\">
          <mxGeometry x=\"40\" y=\"80\" width=\"120\" height=\"60\" as=\"geometry\" />
        </mxCell>
        <mxCell id=\"proxy_my\" value=\"Proxy Server&#10;(MySQL :3307)\" style=\"rounded=1;whiteSpace=wrap;html=1;fillColor=#dae8fc;strokeColor=#6c8ebf;\" vertex=\"1\" parent=\"bouncer\">
          <mxGeometry x=\"40\" y=\"160\" width=\"120\" height=\"60\" as=\"geometry\" />
        </mxCell>
        
        <mxCell id=\"api_server\" value=\"REST API&#10;(:8080)\" style=\"rounded=1;whiteSpace=wrap;html=1;fillColor=#fff2cc;strokeColor=#d6b656;\" vertex=\"1\" parent=\"bouncer\">
          <mxGeometry x=\"40\" y=\"280\" width=\"120\" height=\"60\" as=\"geometry\" />
        </mxCell>
        
        <mxCell id=\"router\" value=\"Router\" style=\"rounded=1;whiteSpace=wrap;html=1;fillColor=#d5e8d4;strokeColor=#82b366;\" vertex=\"1\" parent=\"bouncer\">
          <mxGeometry x=\"220\" y=\"120\" width=\"90\" height=\"60\" as=\"geometry\" />
        </mxCell>
        
        <mxCell id=\"pool\" value=\"Pool Manager\" style=\"rounded=1;whiteSpace=wrap;html=1;fillColor=#e1d5e7;strokeColor=#9673a6;\" vertex=\"1\" parent=\"bouncer\">
          <mxGeometry x=\"380\" y=\"120\" width=\"120\" height=\"80\" as=\"geometry\" />
        </mxCell>

        <mxCell id=\"health\" value=\"Health Checker\" style=\"rounded=1;whiteSpace=wrap;html=1;fillColor=#f8cecc;strokeColor=#b85450;\" vertex=\"1\" parent=\"bouncer\">
          <mxGeometry x=\"220\" y=\"280\" width=\"100\" height=\"60\" as=\"geometry\" />
        </mxCell>

        <mxCell id=\"metrics\" value=\"Metrics (Prometheus)\" style=\"rounded=1;whiteSpace=wrap;html=1;fillColor=#eeeeee;strokeColor=#36393d;\" vertex=\"1\" parent=\"bouncer\">
          <mxGeometry x=\"380\" y=\"280\" width=\"120\" height=\"60\" as=\"geometry\" />
        </mxCell>

        <mxCell id=\"config\" value=\"Config Watcher\" style=\"shape=document;whiteSpace=wrap;html=1;boundedLbl=1;fillColor=#ffffff;\" vertex=\"1\" parent=\"bouncer\">
          <mxGeometry x=\"220\" y=\"360\" width=\"100\" height=\"60\" as=\"geometry\" />
        </mxCell>

        <!-- Tenant DBs -->
        <mxCell id=\"t1\" value=\"Tenant 1 DB&#10;(PostgreSQL)\" style=\"shape=cylinder3;whiteSpace=wrap;html=1;boundedLbl=1;backgroundOutline=1;size=15;fillColor=#dae8fc;strokeColor=#6c8ebf;\" vertex=\"1\" parent=\"1\">
          <mxGeometry x=\"900\" y=\"150\" width=\"100\" height=\"80\" as=\"geometry\" />
        </mxCell>
        <mxCell id=\"t2\" value=\"Tenant 2 DB&#10;(MySQL)\" style=\"shape=cylinder3;whiteSpace=wrap;html=1;boundedLbl=1;backgroundOutline=1;size=15;fillColor=#ffe6cc;strokeColor=#d79b00;\" vertex=\"1\" parent=\"1\">
          <mxGeometry x=\"900\" y=\"270\" width=\"100\" height=\"80\" as=\"geometry\" />
        </mxCell>
        <mxCell id=\"tN\" value=\"Tenant N DB\" style=\"shape=cylinder3;whiteSpace=wrap;html=1;boundedLbl=1;backgroundOutline=1;size=15;dashed=1;\" vertex=\"1\" parent=\"1\">
          <mxGeometry x=\"900\" y=\"390\" width=\"100\" height=\"80\" as=\"geometry\" />
        </mxCell>

        <!-- Edges -->
        <mxCell id=\"e1\" edge=\"1\" parent=\"1\" source=\"app1\" target=\"proxy_pg\" style=\"edgeStyle=orthogonalEdgeStyle;rounded=0;orthogonalLoop=1;jettySize=auto;html=1;\">
          <mxGeometry relative=\"1\" as=\"geometry\" />
        </mxCell>
        <mxCell id=\"e2\" edge=\"1\" parent=\"1\" source=\"app2\" target=\"proxy_pg\" style=\"edgeStyle=orthogonalEdgeStyle;rounded=0;orthogonalLoop=1;jettySize=auto;html=1;\">
          <mxGeometry relative=\"1\" as=\"geometry\" />
        </mxCell>
        <mxCell id=\"e3\" edge=\"1\" parent=\"1\" source=\"appN\" target=\"proxy_my\" style=\"edgeStyle=orthogonalEdgeStyle;rounded=0;orthogonalLoop=1;jettySize=auto;html=1;\">
          <mxGeometry relative=\"1\" as=\"geometry\" />
        </mxCell>
        <mxCell id=\"e4\" edge=\"1\" parent=\"1\" source=\"admin\" target=\"api_server\" style=\"edgeStyle=orthogonalEdgeStyle;rounded=0;orthogonalLoop=1;jettySize=auto;html=1;dashed=1;\">
          <mxGeometry relative=\"1\" as=\"geometry\" />
        </mxCell>

        <!-- Internal Edges (using source/target mapped to parent=1 relative positions or just direct references) -->
        <mxCell id=\"e_px_rt1\" edge=\"1\" parent=\"1\" source=\"proxy_pg\" target=\"router\" style=\"edgeStyle=orthogonalEdgeStyle;html=1;\">
          <mxGeometry relative=\"1\" as=\"geometry\" />
        </mxCell>
        <mxCell id=\"e_px_rt2\" edge=\"1\" parent=\"1\" source=\"proxy_my\" target=\"router\" style=\"edgeStyle=orthogonalEdgeStyle;html=1;\">
          <mxGeometry relative=\"1\" as=\"geometry\" />
        </mxCell>
        
        <mxCell id=\"e_rt_pool\" edge=\"1\" parent=\"1\" source=\"router\" target=\"pool\" style=\"edgeStyle=orthogonalEdgeStyle;html=1;\">
          <mxGeometry relative=\"1\" as=\"geometry\" />
        </mxCell>
        
        <mxCell id=\"e_pool_t1\" edge=\"1\" parent=\"1\" source=\"pool\" target=\"t1\" style=\"edgeStyle=orthogonalEdgeStyle;html=1;\">
          <mxGeometry relative=\"1\" as=\"geometry\" />
        </mxCell>
        <mxCell id=\"e_pool_t2\" edge=\"1\" parent=\"1\" source=\"pool\" target=\"t2\" style=\"edgeStyle=orthogonalEdgeStyle;html=1;\">
          <mxGeometry relative=\"1\" as=\"geometry\" />
        </mxCell>
        <mxCell id=\"e_pool_tN\" edge=\"1\" parent=\"1\" source=\"pool\" target=\"tN\" style=\"edgeStyle=orthogonalEdgeStyle;html=1;dashed=1;\">
          <mxGeometry relative=\"1\" as=\"geometry\" />
        </mxCell>

        <!-- Management Edges -->
        <mxCell id=\"e_api_rt\" edge=\"1\" parent=\"1\" source=\"api_server\" target=\"router\" style=\"edgeStyle=orthogonalEdgeStyle;html=1;dashed=1;startArrow=classic;endArrow=classic;\">
          <mxGeometry relative=\"1\" as=\"geometry\" />
        </mxCell>
        <mxCell id=\"e_api_pool\" edge=\"1\" parent=\"1\" source=\"api_server\" target=\"pool\" style=\"edgeStyle=orthogonalEdgeStyle;html=1;dashed=1;startArrow=classic;endArrow=classic;\">
          <mxGeometry relative=\"1\" as=\"geometry\">
             <Array as=\"points\">
              <mxPoint x=\"490\" y=\"310\" />
            </Array>
          </mxGeometry>
        </mxCell>
        <mxCell id=\"e_hlth_pool\" edge=\"1\" parent=\"1\" source=\"health\" target=\"pool\" style=\"edgeStyle=orthogonalEdgeStyle;html=1;dashed=1;startArrow=classic;endArrow=none;\">
          <mxGeometry relative=\"1\" as=\"geometry\" />
        </mxCell>
        
        <mxCell id=\"e_hlth_t1\" edge=\"1\" parent=\"1\" source=\"health\" target=\"t1\" style=\"edgeStyle=orthogonalEdgeStyle;html=1;dashed=1;strokeColor=#b85450;\">
          <mxGeometry relative=\"1\" as=\"geometry\" />
        </mxCell>
        <mxCell id=\"e_hlth_t2\" edge=\"1\" parent=\"1\" source=\"health\" target=\"t2\" style=\"edgeStyle=orthogonalEdgeStyle;html=1;dashed=1;strokeColor=#b85450;\">
          <mxGeometry relative=\"1\" as=\"geometry\" />
        </mxCell>

        <mxCell id=\"e_pool_met\" edge=\"1\" parent=\"1\" source=\"pool\" target=\"metrics\" style=\"edgeStyle=orthogonalEdgeStyle;html=1;dashed=1;\">
          <mxGeometry relative=\"1\" as=\"geometry\" />
        </mxCell>
        
        <mxCell id=\"e_cfg_rt\" edge=\"1\" parent=\"1\" source=\"config\" target=\"router\" style=\"edgeStyle=orthogonalEdgeStyle;html=1;dashed=1;\">
          <mxGeometry relative=\"1\" as=\"geometry\" />
        </mxCell>
        <mxCell id=\"e_cfg_pool\" edge=\"1\" parent=\"1\" source=\"config\" target=\"pool\" style=\"edgeStyle=orthogonalEdgeStyle;html=1;dashed=1;\">
          <mxGeometry relative=\"1\" as=\"geometry\" />
        </mxCell>
      </root>
    </mxGraphModel>
  </diagram>
</mxfile>
"

/-- The directory the program passes to `os.makedirs(..., exist_ok=True)`. -/
def outDir : String := "/Users/jeelk/Documents/GitHub/JeelKantaria/db-bouncer/docs"

/-- The path the program opens with mode `"w"` and writes `xml` to. -/
def outPath : String :=
  "/Users/jeelk/Documents/GitHub/JeelKantaria/db-bouncer/docs/architecture.drawio"

/-- The exact argument of the final `print` call of the source. -/
def successMsg : String :=
  "Created /Users/jeelk/Documents/GitHub/JeelKantaria/db-bouncer/docs/architecture.drawio"

/-- Filesystem state: the set of existing directories and a map from file
paths to their contents. -/
structure FS where
  dirs : List String
  files : List (String × String)
deriving DecidableEq, Repr

/-- Contents of the file at path `p`, if present. -/
def FS.lookupFile (fs : FS) (p : String) : Option String :=
  (fs.files.find? (fun kv => kv.1 = p)).map (fun kv => kv.2)

/-- `os.makedirs(p, exist_ok := ex)`: creates the directory; if it already
exists it raises `FileExistsError` unless `exist_ok` is set. -/
def FS.makedirs (fs : FS) (p : String) (ex : Bool) : Except String FS :=
  if p ∈ fs.dirs then
    if ex then .ok fs else .error "FileExistsError"
  else .ok { fs with dirs := p :: fs.dirs }

/-- `open(p, "w")` followed by `f.write(c)`: replaces whatever was at `p`
with the contents `c`. -/
def FS.writeOut (fs : FS) (p c : String) : FS :=
  { fs with files := (p, c) :: fs.files.filter (fun kv => kv.1 ≠ p) }

/-- The environment of one run: the initial filesystem plus fault injection
for the two I/O operations the program performs. `mkdirDenied` makes the
`os.makedirs` call raise (e.g. permission denied); `writeDenied = some n`
makes the write raise after `n` characters have reached the file (disk
full, etc.); `none` means the write succeeds. -/
structure World where
  fs : FS
  mkdirDenied : Bool
  writeDenied : Option Nat
deriving DecidableEq, Repr

/-- Observable outcome of a run: final filesystem, stdout lines, exit code. -/
structure Outcome where
  fs : FS
  stdout : List String
  exitCode : Nat
deriving DecidableEq, Repr

set_option linter.unusedVariables false in
/-- The program. `args` and `env` are the process arguments and environment;
the source consults neither (it reads no `sys.argv`, no `os.environ`, no
configuration), so they appear only as unused parameters. The body mirrors
the source line by line: build `xml` (a constant), `os.makedirs(outDir,
exist_ok=True)`, write `xml` to `outPath`, `print(successMsg)`. An uncaught
exception terminates the process with exit code 1 and prints nothing. -/
def run (args : List String) (env : List (String × String)) (w : World) : Outcome :=
  if w.mkdirDenied then
    { fs := w.fs, stdout := [], exitCode := 1 }
  else
    match w.fs.makedirs outDir true with
    | .error _ => { fs := w.fs, stdout := [], exitCode := 1 }
    | .ok fs1 =>
      match w.writeDenied with
      | some n =>
        { fs := fs1.writeOut outPath (xml.take n), stdout := [], exitCode := 1 }
      | none =>
        { fs := fs1.writeOut outPath xml, stdout := [successMsg], exitCode := 0 }

/-! ### Helper lemmas about the filesystem model -/

/-- With `exist_ok := true` (as the source passes it), `os.makedirs` always
succeeds, whether or not the directory exists. -/
theorem makedirs_exist_ok (fs : FS) (p : String) :
    fs.makedirs p true =
      .ok (if p ∈ fs.dirs then fs else { fs with dirs := p :: fs.dirs }) := by
  unfold FS.makedirs
  by_cases h : p ∈ fs.dirs <;> simp [h]

/-- Writing a file makes its contents the written string. -/
theorem lookupFile_writeOut (fs : FS) (p c : String) :
    (fs.writeOut p c).lookupFile p = some c := by
  simp [FS.writeOut, FS.lookupFile, List.find?_cons_of_pos]

/-- Writing a file does not change the directory set. -/
theorem dirs_writeOut (fs : FS) (p c : String) :
    (fs.writeOut p c).dirs = fs.dirs := rfl

/-- Shape of a run in which neither I/O operation faults. -/
theorem run_no_fault (a : List String) (e : List (String × String)) (fs : FS) :
    run a e ⟨fs, false, none⟩ =
      { fs := (if outDir ∈ fs.dirs then fs
               else { fs with dirs := outDir :: fs.dirs }).writeOut outPath xml,
        stdout := [successMsg], exitCode := 0 } := by
  unfold run
  rw [makedirs_exist_ok]
  rfl

/-! ### The claims -/

/-- Claim C1: the emitted document is a fixed constant. The program consults
neither its arguments nor its environment, so two consecutive runs (the
second starting from the filesystem the first left behind, i.e. with no
changes between them) both leave exactly the bytes `xml` at the output
path. -/
theorem run_output_constant (a₁ a₂ : List String)
    (e₁ e₂ : List (String × String)) (fs : FS) :
    (run a₁ e₁ ⟨fs, false, none⟩).fs.lookupFile outPath = some xml ∧
    (run a₂ e₂ ⟨(run a₁ e₁ ⟨fs, false, none⟩).fs, false, none⟩).fs.lookupFile
        outPath = some xml := by
  rw [run_no_fault, run_no_fault]
  constructor <;> exact lookupFile_writeOut _ _ _

/-- Claim C2: referential integrity — every edge cell's `source` and
`target` identifiers appear among the declared node identifiers. -/
theorem edge_endpoints_declared :
    ∀ c ∈ cells, c.edge = true →
      (∃ s ∈ nodeIds, c.source = some s) ∧
      (∃ t ∈ nodeIds, c.target = some t) := by decide

/-- Witness for C2 at the concrete edge cell `e1`
(`source="app1"`, `target="proxy_pg"`). -/
theorem edge_endpoints_declared_witness :
    ((cells.getD 18 { id := "" }) ∈ cells ∧
      (cells.getD 18 { id := "" }).edge = true) ∧
    (∃ s ∈ nodeIds, (cells.getD 18 { id := "" }).source = some s) ∧
    (∃ t ∈ nodeIds, (cells.getD 18 { id := "" }).target = some t) :=
  ⟨⟨by decide, by decide⟩,
    edge_endpoints_declared (cells.getD 18 { id := "" }) (by decide) (by decide)⟩

/-- Claim C3: all node identifiers are pairwise distinct, and every cell
identifier in the document (layers, nodes and edges together) is unique. -/
theorem cell_ids_nodup :
    nodeIds.Nodup ∧ (cells.map (fun c => c.id)).Nodup := by decide

/-- Claim C4: every node's owning container is the top-level canvas layer
(`"1"`) or the identifier of a declared node. -/
theorem node_parent_declared :
    ∀ c ∈ cells, c.vertex = true →
      (c.parent = some "1" ∨ ∃ p ∈ nodeIds, c.parent = some p) := by decide

/-- Witness for C4 at the concrete node cell `proxy_pg`, whose container
`bouncer` is itself a declared node. -/
theorem node_parent_declared_witness :
    ((cells.getD 7 { id := "" }) ∈ cells ∧
      (cells.getD 7 { id := "" }).vertex = true) ∧
    ((cells.getD 7 { id := "" }).parent = some "1" ∨
      ∃ p ∈ nodeIds, (cells.getD 7 { id := "" }).parent = some p) :=
  ⟨⟨by decide, by decide⟩,
    node_parent_declared (cells.getD 7 { id := "" }) (by decide) (by decide)⟩

/-- Claim C5: before writing, the program creates any missing parent
directory of the output path (`os.makedirs` with `exist_ok=True` succeeds
even when it already exists), and it overwrites whatever file is at the
path — for every prior filesystem state, including one where the file
already holds arbitrary contents, the run succeeds with no warning and the
file afterwards holds exactly the generated document. -/
theorem creates_dirs_and_overwrites (fs : FS) :
    (∃ fs₁, fs.makedirs outDir true = Except.ok fs₁) ∧
    outDir ∈ (run [] [] ⟨fs, false, none⟩).fs.dirs ∧
    (run [] [] ⟨fs, false, none⟩).fs.lookupFile outPath = some xml ∧
    (run [] [] ⟨fs, false, none⟩).stdout = [successMsg] ∧
    (run [] [] ⟨fs, false, none⟩).exitCode = 0 := by
  refine ⟨⟨_, makedirs_exist_ok fs outDir⟩, ?_, ?_, ?_, ?_⟩
  · rw [run_no_fault]
    show outDir ∈ (FS.writeOut _ _ _).dirs
    rw [dirs_writeOut]
    by_cases h : outDir ∈ fs.dirs <;> simp [h]
  · rw [run_no_fault]
    exact lookupFile_writeOut _ _ _
  · rw [run_no_fault]
  · rw [run_no_fault]

/-- Claim C6: any filesystem failure is fatal. A denied `os.makedirs` ends
the run with a nonzero exit code, no output, and the whole filesystem —
in particular the destination file — untouched (the document was only in
memory). A failed write also ends the run with a nonzero exit code and no
success message. In neither case is there a retry: the outcome of the
single attempt is the outcome of the run. -/
theorem io_failure_is_fatal (fs : FS) (wd : Option Nat) (n : Nat) :
    ((run [] [] ⟨fs, true, wd⟩).exitCode ≠ 0 ∧
     (run [] [] ⟨fs, true, wd⟩).stdout = [] ∧
     (run [] [] ⟨fs, true, wd⟩).fs = fs ∧
     (run [] [] ⟨fs, true, wd⟩).fs.lookupFile outPath = fs.lookupFile outPath) ∧
    ((run [] [] ⟨fs, false, some n⟩).exitCode ≠ 0 ∧
     (run [] [] ⟨fs, false, some n⟩).stdout = []) := by
  refine ⟨⟨?_, rfl, rfl, rfl⟩, ?_, ?_⟩
  · simp [run]
  · unfold run
    rw [makedirs_exist_ok]
    simp
  · unfold run
    rw [makedirs_exist_ok]
    rfl

/-- Claim C7: round-trip structural fidelity — a conforming reader of the
document yields one node record per cell marked `vertex="1"` and one edge
record per cell marked `edge="1"`: 16 node records and 18 edge records,
the counts of the fixed data set. -/
theorem roundtrip_record_counts :
    (cells.filter (fun c => c.vertex)).length = 16 ∧
    (cells.filter (fun c => c.edge)).length = 18 ∧
    nodeIds.length = 16 ∧ edgeIds.length = 18 := by decide

/-- Claim C8: on success the program prints exactly one confirmation line,
and the path named in that line is exactly the path the document was
written to. -/
theorem success_message_names_path (fs : FS) :
    (run [] [] ⟨fs, false, none⟩).stdout = [successMsg] ∧
    successMsg = "Created " ++ outPath ∧
    (run [] [] ⟨fs, false, none⟩).fs.lookupFile outPath = some xml := by
  rw [run_no_fault]
  exact ⟨rfl, rfl, lookupFile_writeOut _ _ _⟩

/-- Claim C9: every edge cell is owned by the top-level canvas layer
(`parent="1"`), never by a container node. -/
theorem edges_owned_by_canvas :
    ∀ c ∈ cells, c.edge = true → c.parent = some "1" := by decide

/-- Witness for C9 at the concrete edge cell `e_px_rt1`, whose source
`proxy_pg` and target `router` are both nodes inside the `bouncer`
container, yet the edge itself is owned by the canvas. -/
theorem edges_owned_by_canvas_witness :
    ((cells.getD 22 { id := "" }) ∈ cells ∧
      (cells.getD 22 { id := "" }).edge = true ∧
      (cells.getD 22 { id := "" }).source = some "proxy_pg" ∧
      (cells.getD 22 { id := "" }).target = some "router" ∧
      (cells.getD 7 { id := "" }).id = "proxy_pg" ∧
      (cells.getD 7 { id := "" }).parent = some "bouncer" ∧
      (cells.getD 10 { id := "" }).id = "router" ∧
      (cells.getD 10 { id := "" }).parent = some "bouncer") ∧
    (cells.getD 22 { id := "" }).parent = some "1" :=
  ⟨by decide,
    edges_owned_by_canvas (cells.getD 22 { id := "" }) (by decide) (by decide)⟩

/-- Claim C10: the confirmation is printed only after the document has been
written — in every run (any arguments, environment, filesystem and fault
pattern) whose output contains the confirmation line, the full document is
already at the output path. -/
theorem confirmation_implies_persisted (a : List String)
    (e : List (String × String)) (w : World) :
    successMsg ∈ (run a e w).stdout →
    (run a e w).fs.lookupFile outPath = some xml := by
  obtain ⟨fs, md, wd⟩ := w
  cases md
  · cases wd
    · rw [run_no_fault]
      intro _
      exact lookupFile_writeOut _ _ _
    · unfold run
      rw [makedirs_exist_ok]
      intro h
      simp at h
  · intro h
    simp [run] at h

/-- Witness for C10: a concrete successful run from an empty filesystem in
which the confirmation is observed, hence the document is persisted. -/
theorem confirmation_implies_persisted_witness :
    successMsg ∈ (run [] [] ⟨⟨[], []⟩, false, none⟩).stdout ∧
    (run [] [] ⟨⟨[], []⟩, false, none⟩).fs.lookupFile outPath = some xml :=
  ⟨by rw [run_no_fault]; exact List.mem_singleton.mpr rfl,
    confirmation_implies_persisted [] [] ⟨⟨[], []⟩, false, none⟩
      (by rw [run_no_fault]; exact List.mem_singleton.mpr rfl)⟩

end GenDrawio
